import Mathlib

/-! Verification of the plotly documentation repository.

The repository consists of two documentation files:

* `src/_posts/scikit/ledoit-wolf-vs-oas/Ledoit-Wolf-vs-OAS-estimation.ipynb`,
  a Jupyter notebook comparing the Ledoit-Wolf and OAS covariance shrinkage
  estimators (both taken from `sklearn.covariance`) and plotting the results
  through `plotly`;
* `src/_posts/python/statistical/error-bar/2015-06-30-error-bars.html`,
  a generated page whose code cells build literal plotly chart descriptions
  with error bars and submit them via `py.iplot`.

This development embeds the Python code of both documents at three levels:

1. a syntactic embedding (`PyExpr`/`PyStmt`/`PyCell`): every code cell of
   both documents is transcribed statement by statement, keeping names,
   literal values, call targets and keyword arguments; static analyses
   (defined names, external reads, in-place mutations, step classification)
   are computed from this transcription;
2. an interpreter over the syntactic embedding, producing the sequence of
   `py.iplot` submission events with their evaluated argument values
   (external library calls evaluate to inert `extV` values);
3. a functional embedding (`calcCell`, `plotMSECell`, `plotShrinkageCell`)
   of the notebook's calculation and figure-construction cells,
   parameterised over the external numpy/scipy/sklearn operations, which
   lets us prove structural properties of the simulation double loop.

Expression/statement/value lists are represented by mutually inductive
list types (`PyArgs`, `PyKwargs`, `PyBlock`, ...) so that every analysis
is structurally recursive and computes by kernel reduction; the `listE` /
`call` / `forIn` / ... helper definitions rebuild the usual list-literal
surface syntax on top of them.
-/

/-! ## Syntactic embedding: expressions -/

/-- A Python numeric literal, kept in decimal-scientific form: the value
`mantissa * 10 ^ (-exp10)`.  `6` is `⟨6, 0⟩` and `0.1` is `⟨1, 1⟩`.  The
documents only carry these numbers into chart descriptions; no arithmetic
is performed on them. -/
structure PyNum where
  mantissa : Int
  exp10 : Nat
deriving DecidableEq, Repr

instance (n : Nat) : OfNat PyNum n where
  ofNat := ⟨n, 0⟩

instance : Neg PyNum where
  neg a := ⟨-a.mantissa, a.exp10⟩

instance : OfScientific PyNum where
  ofScientific m b e := if b then ⟨m, e⟩ else ⟨m * 10 ^ e, 0⟩

/-- `⟨n, 0⟩`, the literal for a natural number. -/
def PyNum.fromNat (n : Nat) : PyNum := ⟨n, 0⟩

/-- The natural-number index a literal denotes (used for `range` bounds and
element-assignment indices, which are integers in the documents). -/
def PyNum.toNatIdx (a : PyNum) : Nat := a.mantissa.toNat / 10 ^ a.exp10

mutual

/-- Python expressions as they occur in the two documents.  Call targets
are kept as the dotted name written in the source (`"py.iplot"`,
`"lw.fit"`, `"np.random.normal"`, ...); `attr obj f` is an attribute read
`obj.f`. -/
inductive PyExpr : Type where
  | num (q : PyNum)
  | str (s : String)
  | boolE (b : Bool)
  | name (s : String)
  | attr (obj field : String)
  | tupleC (es : PyArgs)
  | listC (es : PyArgs)
  | binop (op : String) (l r : PyExpr)
  | callC (fn : String) (args : PyArgs) (kwargs : PyKwargs)

/-- A list of positional arguments / list elements. -/
inductive PyArgs : Type where
  | nil
  | cons (e : PyExpr) (es : PyArgs)

/-- A list of keyword arguments. -/
inductive PyKwargs : Type where
  | nil
  | cons (key : String) (e : PyExpr) (es : PyKwargs)

end

/-- Build a `PyArgs` from a list literal. -/
def pyArgsOf : List PyExpr → PyArgs
  | [] => .nil
  | e :: es => .cons e (pyArgsOf es)

/-- Build a `PyKwargs` from a list literal. -/
def pyKwargsOf : List (String × PyExpr) → PyKwargs
  | [] => .nil
  | (k, e) :: es => .cons k e (pyKwargsOf es)

/-- A tuple expression `(e, ...)`. -/
def PyExpr.tupleE (es : List PyExpr) : PyExpr := .tupleC (pyArgsOf es)

/-- A list expression `[e, ...]`. -/
def PyExpr.listE (es : List PyExpr) : PyExpr := .listC (pyArgsOf es)

/-- A call `fn(args..., key=value...)`. -/
def PyExpr.call (fn : String) (args : List PyExpr) (kwargs : List (String × PyExpr)) : PyExpr :=
  .callC fn (pyArgsOf args) (pyKwargsOf kwargs)

/-- The base variable of a dotted call target: `np.random.normal ↦ np`,
`toeplitz ↦ toeplitz`. -/
def callBase (fn : String) : String :=
  String.mk (fn.toList.takeWhile (fun c => c != '.'))

mutual

/-- Variable names read by an expression (call targets contribute their
base name; attribute reads contribute the object). -/
def PyExpr.readsE : PyExpr → List String
  | .num _ => []
  | .str _ => []
  | .boolE _ => []
  | .name s => [s]
  | .attr obj _ => [obj]
  | .tupleC es => readsEArgs es
  | .listC es => readsEArgs es
  | .binop _ l r => l.readsE ++ r.readsE
  | .callC fn args kwargs => callBase fn :: (readsEArgs args ++ readsEKwargs kwargs)

def readsEArgs : PyArgs → List String
  | .nil => []
  | .cons e es => e.readsE ++ readsEArgs es

def readsEKwargs : PyKwargs → List String
  | .nil => []
  | .cons _ e es => e.readsE ++ readsEKwargs es

end

mutual

/-- All dotted call-target names occurring in an expression. -/
def PyExpr.fnsE : PyExpr → List String
  | .num _ => []
  | .str _ => []
  | .boolE _ => []
  | .name _ => []
  | .attr _ _ => []
  | .tupleC es => fnsEArgs es
  | .listC es => fnsEArgs es
  | .binop _ l r => l.fnsE ++ r.fnsE
  | .callC fn args kwargs => fn :: (fnsEArgs args ++ fnsEKwargs kwargs)

def fnsEArgs : PyArgs → List String
  | .nil => []
  | .cons e es => e.fnsE ++ fnsEArgs es

def fnsEKwargs : PyKwargs → List String
  | .nil => []
  | .cons _ e es => e.fnsE ++ fnsEKwargs es

end

/-! ## Syntactic embedding: statements, cells, documents -/

mutual

/-- Python statements as they occur in the two documents.  The grammar also
has constructors for `if`, `try`/`except` and `def`, so that "the code
contains no branch / no handler / no function definition" is a statement
about the transcription rather than about the grammar. -/
inductive PyStmt : Type where
  | importAs (module asName : String)
  | importFrom (module : String) (names : List String)
  | assign (lhs : String) (rhs : PyExpr)
  | setItem (target : String) (index : List PyExpr) (rhs : PyExpr)
  | exprStmt (e : PyExpr)
  | forC (vars : List String) (iter : PyExpr) (body : PyBlock)
  | shell (cmd : String)
  | ifC (cond : PyExpr) (thenB elseB : PyBlock)
  | tryC (body handler : PyBlock)
  | funcC (fname : String) (params : List String) (body : PyBlock)

/-- A block of statements (a suite, in Python grammar terms). -/
inductive PyBlock : Type where
  | nil
  | cons (s : PyStmt) (ss : PyBlock)

end

/-- Build a `PyBlock` from a list literal. -/
def pyBlockOf : List PyStmt → PyBlock
  | [] => .nil
  | s :: ss => .cons s (pyBlockOf ss)

/-- A `for vars in iter:` loop. -/
def PyStmt.forIn (vars : List String) (iter : PyExpr) (body : List PyStmt) : PyStmt :=
  .forC vars iter (pyBlockOf body)

/-- An `if cond:` statement. -/
def PyStmt.ifStmt (cond : PyExpr) (thenB elseB : List PyStmt) : PyStmt :=
  .ifC cond (pyBlockOf thenB) (pyBlockOf elseB)

/-- A `try:` / `except:` statement. -/
def PyStmt.tryExcept (body handler : List PyStmt) : PyStmt :=
  .tryC (pyBlockOf body) (pyBlockOf handler)

/-- A `def fname(params):` function definition. -/
def PyStmt.funcDef (fname : String) (params : List String) (body : List PyStmt) : PyStmt :=
  .funcC fname params (pyBlockOf body)

/-- Recorded outputs of a cell, as shown in the document.  The failed
`pip install` transcript of the notebook's publisher cell is transcribed in
structured form: the package being installed, the path whose creation was
refused, the reported error kind, and the exit code of the command. -/
inductive CellOutput : Type where
  | executeResult (text : String)
  | streamText (text : String)
  | iframeEmbed (src : String)
  | htmlLink (href : String)
  | installFailure (pkg : String) (createPath : String) (errorKind : String) (exitCode : Nat)

/-- A code cell: its statements and its recorded outputs. -/
structure PyCell where
  stmts : List PyStmt
  outputs : List CellOutput

/-- A document: YAML front matter (empty for the notebook) and the list of
code cells in order. -/
structure PyDoc where
  frontMatter : List (String × String)
  cells : List PyCell

/-! ## Static analyses over the syntactic embedding -/

mutual

/-- Process one statement: given the list of names already bound earlier in
the scope, return the names it reads that are not yet bound ("external
reads") together with the updated bound-name list.  Loop variables and
names assigned inside a `for` body stay bound after the loop, as in
Python. -/
def extReadsStmt : PyStmt → List String → List String × List String
  | .importAs _ a, env => ([], a :: env)
  | .importFrom _ ns, env => ([], ns ++ env)
  | .assign lhs rhs, env => (rhs.readsE.filter (fun n => !env.contains n), lhs :: env)
  | .setItem t idx rhs, env =>
      (((t :: (idx.flatMap PyExpr.readsE)) ++ rhs.readsE).filter (fun n => !env.contains n), env)
  | .exprStmt e, env => (e.readsE.filter (fun n => !env.contains n), env)
  | .forC vars iter body, env =>
      let r1 := iter.readsE.filter (fun n => !env.contains n)
      let p := extReadsBlock body (vars ++ env)
      (r1 ++ p.1, p.2)
  | .shell _, env => ([], env)
  | .ifC cond thenB elseB, env =>
      let r1 := cond.readsE.filter (fun n => !env.contains n)
      let p := extReadsBlock thenB env
      let q := extReadsBlock elseB p.2
      (r1 ++ p.1 ++ q.1, q.2)
  | .tryC body handler, env =>
      let p := extReadsBlock body env
      let q := extReadsBlock handler p.2
      (p.1 ++ q.1, q.2)
  | .funcC fname _ _, env => ([], fname :: env)

def extReadsBlock : PyBlock → List String → List String × List String
  | .nil, env => ([], env)
  | .cons s ss, env =>
      let p := extReadsStmt s env
      let q := extReadsBlock ss p.2
      (p.1 ++ q.1, q.2)

end

/-- Thread `extReadsStmt` through a list of statements. -/
def extReadsList : List PyStmt → List String → List String × List String
  | [], env => ([], env)
  | s :: ss, env =>
      let p := extReadsStmt s env
      let q := extReadsList ss p.2
      (p.1 ++ q.1, q.2)

/-- Names a cell reads that are not bound earlier in the same cell. -/
def cellExtReads (c : PyCell) : List String := (extReadsList c.stmts []).1

/-- Names bound by a cell (imports, assignment targets, loop variables). -/
def cellDefines (c : PyCell) : List String := (extReadsList c.stmts []).2

mutual

/-- Targets of in-place element assignments (`a[i, j] = v`) in a statement. -/
def mutatesStmt : PyStmt → List String
  | .setItem t _ _ => [t]
  | .forC _ _ body => mutatesBlock body
  | .ifC _ thenB elseB => mutatesBlock thenB ++ mutatesBlock elseB
  | .tryC body handler => mutatesBlock body ++ mutatesBlock handler
  | .funcC _ _ body => mutatesBlock body
  | _ => []

def mutatesBlock : PyBlock → List String
  | .nil => []
  | .cons s ss => mutatesStmt s ++ mutatesBlock ss

end

/-- Targets of in-place element assignments in a cell. -/
def cellMutates (c : PyCell) : List String := c.stmts.flatMap mutatesStmt

mutual

/-- Whether a statement contains an error handler or a conditional branch
(`try`/`except` or `if`), at any nesting depth. -/
def hasHandlerStmt : PyStmt → Bool
  | .tryC _ _ => true
  | .ifC _ _ _ => true
  | .forC _ _ body => hasHandlerBlock body
  | .funcC _ _ body => hasHandlerBlock body
  | _ => false

def hasHandlerBlock : PyBlock → Bool
  | .nil => false
  | .cons s ss => hasHandlerStmt s || hasHandlerBlock ss

end

mutual

/-- Whether a statement contains a shell command nested inside a loop, a
conditional or a function body (the shape any retry of the failed
`pip install` would have to take). -/
def shellInsideStmt : PyStmt → Bool
  | .forC _ _ body => shellInBlock body
  | .ifC _ thenB elseB => shellInBlock thenB || shellInBlock elseB
  | .tryC body handler => shellInBlock body || shellInBlock handler
  | .funcC _ _ body => shellInBlock body
  | _ => false

/-- Whether a block contains a shell command anywhere. -/
def shellInBlock : PyBlock → Bool
  | .nil => false
  | .cons s ss =>
      (match s with | .shell _ => true | _ => false) || shellInsideStmt s || shellInBlock ss

end

mutual

/-- Whether a statement contains a function definition. -/
def funcDefStmt : PyStmt → Bool
  | .funcC _ _ _ => true
  | .forC _ _ body => funcDefBlock body
  | .ifC _ thenB elseB => funcDefBlock thenB || funcDefBlock elseB
  | .tryC body handler => funcDefBlock body || funcDefBlock handler
  | _ => false

def funcDefBlock : PyBlock → Bool
  | .nil => false
  | .cons s ss => funcDefStmt s || funcDefBlock ss

end

mutual

/-- Whether a statement is or contains `from module import names` with the
given module, binding the given name. -/
def importFromStmt (m n : String) : PyStmt → Bool
  | .importFrom m' ns => m' == m && ns.contains n
  | .forC _ _ body => importFromBlock m n body
  | .ifC _ thenB elseB => importFromBlock m n thenB || importFromBlock m n elseB
  | .tryC body handler => importFromBlock m n body || importFromBlock m n handler
  | .funcC _ _ body => importFromBlock m n body
  | _ => false

def importFromBlock (m n : String) : PyBlock → Bool
  | .nil => false
  | .cons s ss => importFromStmt m n s || importFromBlock m n ss

end

/-! ## Transcription: `2015-06-30-error-bars.html`

Each `errorBarsCellN` transcribes the N-th code cell of the generated page,
in source order.  Literal numbers, strings, booleans and keyword order are
kept exactly as written. -/

/-- Cell 1 (`In [1]`): basic symmetric error bars, `py.iplot(data,
filename='basic-error-bar')`. -/
def errorBarsCell1 : PyCell where
  stmts := [
    .importAs "plotly.plotly" "py",
    .importAs "plotly.graph_objs" "go",
    .assign "data" (.listE [
      .call "go.Scatter" [] [
        ("x", .listE [.num 0, .num 1, .num 2]),
        ("y", .listE [.num 6, .num 10, .num 2]),
        ("error_y", .call "dict" [] [
          ("type", .str "data"),
          ("array", .listE [.num 1, .num 2, .num 3]),
          ("visible", .boolE true)])]]),
    .exprStmt (.call "py.iplot" [.name "data"] [("filename", .str "basic-error-bar")])]
  outputs := [.iframeEmbed "https://plot.ly/~PythonPlotBot/2622.embed"]

/-- Cell 2 (`In [2]`): asymmetric error bars with data arrays. -/
def errorBarsCell2 : PyCell where
  stmts := [
    .importAs "plotly.plotly" "py",
    .importAs "plotly.graph_objs" "go",
    .assign "data" (.listE [
      .call "go.Scatter" [] [
        ("x", .listE [.num 1, .num 2, .num 3, .num 4]),
        ("y", .listE [.num 2, .num 1, .num 3, .num 4]),
        ("error_y", .call "dict" [] [
          ("type", .str "data"),
          ("symmetric", .boolE false),
          ("array", .listE [.num 0.1, .num 0.2, .num 0.1, .num 0.1]),
          ("arrayminus", .listE [.num 0.2, .num 0.4, .num 1, .num 0.2])])]]),
    .exprStmt (.call "py.iplot" [.name "data"] [("filename", .str "error-bar-asymmetric-array")])]
  outputs := [.iframeEmbed "https://plot.ly/~PythonPlotBot/2624.embed"]

/-- Cell 3 (`In [3]`): error bars as a percentage of the y value. -/
def errorBarsCell3 : PyCell where
  stmts := [
    .importAs "plotly.plotly" "py",
    .importAs "plotly.graph_objs" "go",
    .assign "data" (.listE [
      .call "go.Scatter" [] [
        ("x", .listE [.num 0, .num 1, .num 2]),
        ("y", .listE [.num 6, .num 10, .num 2]),
        ("error_y", .call "dict" [] [
          ("type", .str "percent"),
          ("value", .num 50),
          ("visible", .boolE true)])]]),
    .exprStmt (.call "py.iplot" [.name "data"] [("filename", .str "percent-error-bar")])]
  outputs := [.iframeEmbed "https://plot.ly/~PythonPlotBot/2626.embed"]

/-- Cell 4 (`In [4]`): asymmetric error bars with a constant offset. -/
def errorBarsCell4 : PyCell where
  stmts := [
    .importAs "plotly.plotly" "py",
    .importAs "plotly.graph_objs" "go",
    .assign "data" (.listE [
      .call "go.Scatter" [] [
        ("x", .listE [.num 1, .num 2, .num 3, .num 4]),
        ("y", .listE [.num 2, .num 1, .num 3, .num 4]),
        ("error_y", .call "dict" [] [
          ("type", .str "percent"),
          ("symmetric", .boolE false),
          ("value", .num 15),
          ("valueminus", .num 25)])]]),
    .exprStmt (.call "py.iplot" [.name "data"] [("filename", .str "error-bar-asymmetric-constant")])]
  outputs := [.iframeEmbed "https://plot.ly/~PythonPlotBot/2628.embed"]

/-- Cell 5 (`In [5]`): horizontal error bars. -/
def errorBarsCell5 : PyCell where
  stmts := [
    .importAs "plotly.plotly" "py",
    .importAs "plotly.graph_objs" "go",
    .assign "data" (.listE [
      .call "go.Scatter" [] [
        ("x", .listE [.num 1, .num 2, .num 3, .num 4]),
        ("y", .listE [.num 2, .num 1, .num 3, .num 4]),
        ("error_x", .call "dict" [] [
          ("type", .str "percent"),
          ("value", .num 10)])]]),
    .exprStmt (.call "py.iplot" [.name "data"] [("filename", .str "error-bar-horizontal")])]
  outputs := [.iframeEmbed "https://plot.ly/~PythonPlotBot/2630.embed"]

/-- Cell 6 (`In [6]`): grouped bar chart with error bars. -/
def errorBarsCell6 : PyCell where
  stmts := [
    .importAs "plotly.plotly" "py",
    .importAs "plotly.graph_objs" "go",
    .assign "trace1" (.call "go.Bar" [] [
      ("x", .listE [.str "Trial 1", .str "Trial 2", .str "Trial 3"]),
      ("y", .listE [.num 3, .num 6, .num 4]),
      ("name", .str "Control"),
      ("error_y", .call "dict" [] [
        ("type", .str "data"),
        ("array", .listE [.num 1, .num 0.5, .num 1.5]),
        ("visible", .boolE true)])]),
    .assign "trace2" (.call "go.Bar" [] [
      ("x", .listE [.str "Trial 1", .str "Trial 2", .str "Trial 3"]),
      ("y", .listE [.num 4, .num 7, .num 3]),
      ("name", .str "Experimental"),
      ("error_y", .call "dict" [] [
        ("type", .str "data"),
        ("array", .listE [.num 0.5, .num 1, .num 2]),
        ("visible", .boolE true)])]),
    .assign "data" (.listE [.name "trace1", .name "trace2"]),
    .assign "layout" (.call "go.Layout" [] [("barmode", .str "group")]),
    .assign "fig" (.call "go.Figure" [] [("data", .name "data"), ("layout", .name "layout")]),
    .exprStmt (.call "py.iplot" [.name "fig"] [("filename", .str "error-bar-bar")])]
  outputs := [.iframeEmbed "https://plot.ly/~PythonPlotBot/2632.embed"]

/-- Cell 7 (second `In [1]`): colored and styled error bars; the x values of
the first trace come from `np.linspace(-4, 4, 100)` and its y values from
`np.sinc(x_theo)` rather than from literals. -/
def errorBarsCell7 : PyCell where
  stmts := [
    .importAs "plotly.plotly" "py",
    .importAs "plotly.graph_objs" "go",
    .importAs "numpy" "np",
    .assign "x_theo" (.call "np.linspace" [.num (-4), .num 4, .num 100] []),
    .assign "sincx" (.call "np.sinc" [.name "x_theo"] []),
    .assign "x" (.listE [.num (-3.8), .num (-3.03), .num (-1.91), .num (-1.46),
      .num (-0.89), .num (-0.24), .num (-0.0), .num 0.41, .num 0.89, .num 1.01,
      .num 1.91, .num 2.28, .num 2.79, .num 3.56]),
    .assign "y" (.listE [.num (-0.02), .num 0.04, .num (-0.01), .num (-0.27),
      .num 0.36, .num 0.75, .num 1.03, .num 0.65, .num 0.28, .num 0.02,
      .num (-0.11), .num 0.16, .num 0.04, .num (-0.15)]),
    .assign "trace1" (.call "go.Scatter" [] [
      ("x", .name "x_theo"),
      ("y", .name "sincx"),
      ("name", .str "sinc(x)")]),
    .assign "trace2" (.call "go.Scatter" [] [
      ("x", .name "x"),
      ("y", .name "y"),
      ("mode", .str "markers"),
      ("name", .str "measured"),
      ("error_y", .call "dict" [] [
        ("type", .str "constant"),
        ("value", .num 0.1),
        ("color", .str "#85144B"),
        ("thickness", .num 1.5),
        ("width", .num 3)]),
      ("error_x", .call "dict" [] [
        ("type", .str "constant"),
        ("value", .num 0.2),
        ("color", .str "#85144B"),
        ("thickness", .num 1.5),
        ("width", .num 3)]),
      ("marker", .call "dict" [] [
        ("color", .str "#85144B"),
        ("size", .num 8)])]),
    .assign "data" (.listE [.name "trace1", .name "trace2"]),
    .exprStmt (.call "py.iplot" [.name "data"] [("filename", .str "error-bar-style")])]
  outputs := [.iframeEmbed "https://plot.ly/~jordanpeterson/440.embed"]

/-- The error-bars document: YAML front matter (keys in source order,
duplicate keys kept) and its seven code cells. -/
def errorBarsDoc : PyDoc where
  frontMatter := [
    ("permalink", "python/error-bars/"),
    ("description", "How to add error-bars to charts in Python with Plotly."),
    ("name", "Error Bars | plotly"),
    ("has_thumbnail", "true"),
    ("thumbnail", "thumbnail/error-bar.jpg"),
    ("layout", "user-guide"),
    ("name", "Error Bars"),
    ("language", "python"),
    ("title", "Error Bars | plotly"),
    ("display_as", "statistical"),
    ("has_thumbnail", "true"),
    ("page_type", "example_index"),
    ("order", "1"),
    ("ipynb", "~notebook_demo/18")]
  cells := [errorBarsCell1, errorBarsCell2, errorBarsCell3, errorBarsCell4,
    errorBarsCell5, errorBarsCell6, errorBarsCell7]

/-! ## Transcription: `Ledoit-Wolf-vs-OAS-estimation.ipynb`

Each `notebookCellN` transcribes the N-th code cell of the notebook, in
source order (markdown cells carry no code and are omitted). -/

/-- Code cell 1 (`In [1]`): version report. -/
def notebookCell1 : PyCell where
  stmts := [
    .importAs "sklearn" "sklearn",
    .exprStmt (.attr "sklearn" "__version__")]
  outputs := [.executeResult "\x270.18\x27"]

/-- Code cell 2 (`In [2]`): imports. -/
def notebookCell2 : PyCell where
  stmts := [
    .exprStmt (.call "print" [.name "__doc__"] []),
    .importAs "plotly.plotly" "py",
    .importAs "plotly.graph_objs" "go",
    .importAs "numpy" "np",
    .importFrom "scipy.linalg" ["toeplitz", "cholesky"],
    .importFrom "sklearn.covariance" ["LedoitWolf", "OAS"]]
  outputs := [.streamText "Automatically created module for IPython interactive environment"]

/-- Code cell 3 (`In [3]`): the calculation cell — seeds the generator,
builds the AR(1) covariance and its Cholesky factor, and runs the double
simulation loop filling the four result arrays. -/
def notebookCell3 : PyCell where
  stmts := [
    .exprStmt (.call "np.random.seed" [.num 0] []),
    .assign "n_features" (.num 100),
    .assign "r" (.num 0.1),
    .assign "real_cov" (.call "toeplitz"
      [.binop "**" (.name "r") (.call "np.arange" [.name "n_features"] [])] []),
    .assign "coloring_matrix" (.call "cholesky" [.name "real_cov"] []),
    .assign "n_samples_range" (.call "np.arange" [.num 6, .num 31, .num 1] []),
    .assign "repeat" (.num 100),
    .assign "lw_mse" (.call "np.zeros"
      [.tupleE [.attr "n_samples_range" "size", .name "repeat"]] []),
    .assign "oa_mse" (.call "np.zeros"
      [.tupleE [.attr "n_samples_range" "size", .name "repeat"]] []),
    .assign "lw_shrinkage" (.call "np.zeros"
      [.tupleE [.attr "n_samples_range" "size", .name "repeat"]] []),
    .assign "oa_shrinkage" (.call "np.zeros"
      [.tupleE [.attr "n_samples_range" "size", .name "repeat"]] []),
    .forIn ["i", "n_samples"] (.call "enumerate" [.name "n_samples_range"] []) [
      .forIn ["j"] (.call "range" [.name "repeat"] []) [
        .assign "X" (.call "np.dot"
          [.call "np.random.normal" []
            [("size", .tupleE [.name "n_samples", .name "n_features"])],
           .attr "coloring_matrix" "T"] []),
        .assign "lw" (.call "LedoitWolf" []
          [("store_precision", .boolE false), ("assume_centered", .boolE true)]),
        .exprStmt (.call "lw.fit" [.name "X"] []),
        .setItem "lw_mse" [.name "i", .name "j"]
          (.call "lw.error_norm" [.name "real_cov"] [("scaling", .boolE false)]),
        .setItem "lw_shrinkage" [.name "i", .name "j"] (.attr "lw" "shrinkage_"),
        .assign "oa" (.call "OAS" []
          [("store_precision", .boolE false), ("assume_centered", .boolE true)]),
        .exprStmt (.call "oa.fit" [.name "X"] []),
        .setItem "oa_mse" [.name "i", .name "j"]
          (.call "oa.error_norm" [.name "real_cov"] [("scaling", .boolE false)]),
        .setItem "oa_shrinkage" [.name "i", .name "j"] (.attr "oa" "shrinkage_")]]]
  outputs := []

/-- Code cell 4 (`In [4]`): builds the MSE comparison figure. -/
def notebookCell4 : PyCell where
  stmts := [
    .assign "Ledoit_Wolf" (.call "go.Scatter" [] [
      ("x", .name "n_samples_range"),
      ("y", .call "lw_mse.mean" [.num 1] []),
      ("error_y", .call "dict" []
        [("visible", .boolE true), ("arrayminus", .call "lw_mse.std" [.num 1] [])]),
      ("name", .str "Ledoit-Wolf"),
      ("mode", .str "lines"),
      ("line", .call "dict" [] [("color", .str "navy"), ("width", .num 2)])]),
    .assign "OAS" (.call "go.Scatter" [] [
      ("x", .name "n_samples_range"),
      ("y", .call "oa_mse.mean" [.num 1] []),
      ("error_y", .call "dict" []
        [("visible", .boolE true), ("arrayminus", .call "oa_mse.std" [.num 1] [])]),
      ("name", .str "OAS"),
      ("mode", .str "lines"),
      ("line", .call "dict" [] [("color", .str "#FF8C00"), ("width", .num 2)])]),
    .assign "data" (.listE [.name "Ledoit_Wolf", .name "OAS"]),
    .assign "layout" (.call "go.Layout" [] [
      ("title", .str "Comparison of covariance estimators"),
      ("yaxis", .call "dict" [] [("title", .str "Squared error")]),
      ("xaxis", .call "dict" [] [("title", .str "n_samples")])]),
    .assign "fig" (.call "go.Figure" [] [("data", .name "data"), ("layout", .name "layout")])]
  outputs := []

/-- Code cell 5 (`In [5]`): submits the MSE figure. -/
def notebookCell5 : PyCell where
  stmts := [.exprStmt (.call "py.iplot" [.name "fig"] [])]
  outputs := [.iframeEmbed "https://plot.ly/~Diksha_Gabha/2867.embed"]

/-- Code cell 6 (`In [6]`): builds the shrinkage-coefficient figure.  Note
that the Ledoit-Wolf trace takes its `arrayminus` from `lw_mse.std(1)`, not
from `lw_shrinkage`. -/
def notebookCell6 : PyCell where
  stmts := [
    .assign "Ledoit_Wolf" (.call "go.Scatter" [] [
      ("x", .name "n_samples_range"),
      ("y", .call "lw_shrinkage.mean" [.num 1] []),
      ("error_y", .call "dict" []
        [("visible", .boolE true), ("arrayminus", .call "lw_mse.std" [.num 1] [])]),
      ("name", .str "Ledoit-Wolf"),
      ("mode", .str "lines"),
      ("line", .call "dict" [] [("color", .str "navy"), ("width", .num 2)])]),
    .assign "OAS" (.call "go.Scatter" [] [
      ("x", .name "n_samples_range"),
      ("y", .call "oa_shrinkage.mean" [.num 1] []),
      ("error_y", .call "dict" []
        [("visible", .boolE true), ("arrayminus", .call "oa_shrinkage.std" [.num 1] [])]),
      ("name", .str "OAS"),
      ("mode", .str "lines"),
      ("line", .call "dict" [] [("color", .str "#FF8C00"), ("width", .num 2)])]),
    .assign "data" (.listE [.name "Ledoit_Wolf", .name "OAS"]),
    .assign "layout" (.call "go.Layout" [] [
      ("title", .str "Comparison of covariance estimators"),
      ("yaxis", .call "dict" [] [("title", .str "Shrinkage")]),
      ("xaxis", .call "dict" [] [("title", .str "n_samples")])]),
    .assign "fig" (.call "go.Figure" [] [("data", .name "data"), ("layout", .name "layout")])]
  outputs := []

/-- Code cell 7 (`In [7]`): submits the shrinkage figure. -/
def notebookCell7 : PyCell where
  stmts := [.exprStmt (.call "py.iplot" [.name "fig"] [])]
  outputs := [.iframeEmbed "https://plot.ly/~Diksha_Gabha/2869.embed"]

/-- Code cell 8 (second `In [2]`): publishing boilerplate — styles the
notebook, shells out to `pip install` (the transcript shows the install
failing with a permission error and exit code 1) and calls
`publisher.publish`. -/
def notebookCell8 : PyCell where
  stmts := [
    .importFrom "IPython.display" ["display", "HTML"],
    .exprStmt (.call "display"
      [.call "HTML" [.str "<link href=\"//fonts.googleapis.com/css?family=Open+Sans:600,400,300,200|Inconsolata|Ubuntu+Mono:400,700\" rel=\"stylesheet\" type=\"text/css\" />"] []] []),
    .exprStmt (.call "display"
      [.call "HTML" [.str "<link rel=\"stylesheet\" type=\"text/css\" href=\"http://help.plot.ly/documentation/all_static/css/ipython-notebook-custom.css\">"] []] []),
    .shell "pip install git+https://github.com/plotly/publisher.git --upgrade",
    .importAs "publisher" "publisher",
    .exprStmt (.call "publisher.publish" [
      .str "Ledoit-Wolf-vs-OAS-estimation.ipynb",
      .str "scikit-learn/plot-lw-vs-oas/",
      .str "Ledoit-Wolf vs OAS Estimation | plotly",
      .str " "] [
      ("title", .str "Ledoit-Wolf vs OAS Estimation | plotly"),
      ("name", .str "Ledoit-Wolf vs OAS Estimation"),
      ("has_thumbnail", .str "true"),
      ("thumbnail", .str "thumbnail/ledoit.jpg"),
      ("language", .str "scikit-learn"),
      ("page_type", .str "example_index"),
      ("display_as", .str "covariance_estimation"),
      ("order", .num 1),
      ("ipynb", .str "~Diksha_Gabha/2871")])]
  outputs := [
    .htmlLink "//fonts.googleapis.com/css?family=Open+Sans:600,400,300,200|Inconsolata|Ubuntu+Mono:400,700",
    .htmlLink "http://help.plot.ly/documentation/all_static/css/ipython-notebook-custom.css",
    .installFailure "publisher" "/usr/local/lib/python2.7/dist-packages/publisher" "Permission denied" 1]

/-- Code cell 9: the trailing empty cell of the notebook. -/
def notebookCell9 : PyCell where
  stmts := []
  outputs := []

/-- The notebook document: no front matter, nine code cells. -/
def notebookDoc : PyDoc where
  frontMatter := []
  cells := [notebookCell1, notebookCell2, notebookCell3, notebookCell4,
    notebookCell5, notebookCell6, notebookCell7, notebookCell8, notebookCell9]

/-- The repository: its two documents. -/
def repoDocs : List PyDoc := [errorBarsDoc, notebookDoc]

/-! ## Document-level data-flow analyses -/

/-- Names that may be free in a document without coming from another
document: Python builtins used by the two documents. -/
def builtinNames : List String := ["print", "__doc__", "dict", "enumerate", "range"]

/-- `true` iff the two name lists share no element. -/
def namesDisjoint (a b : List String) : Bool := a.all (fun n => !b.contains n)

/-- `true` iff no name bound in one cell is read (as an external read) or
element-assigned by any later cell. -/
def noCrossUseCells : List PyCell → Bool
  | [] => true
  | c :: rest =>
      rest.all (fun c' => namesDisjoint (cellDefines c) (cellExtReads c' ++ cellMutates c'))
        && noCrossUseCells rest

/-- `true` iff no name bound in one cell is element-assigned by a later
cell. -/
def noCrossMutateCells : List PyCell → Bool
  | [] => true
  | c :: rest =>
      rest.all (fun c' => namesDisjoint (cellDefines c) (cellMutates c'))
        && noCrossMutateCells rest

/-- All statements of a document, cells concatenated in order (cells of one
document share a kernel session). -/
def docStmts (d : PyDoc) : List PyStmt := d.cells.flatMap (fun c => c.stmts)

/-- Names a document reads that no earlier statement of the same document
binds: the document's only external name inputs. -/
def docFreeReads (d : PyDoc) : List String := (extReadsList (docStmts d) []).1

/-- All names bound anywhere in a document. -/
def docDefines (d : PyDoc) : List String := (extReadsList (docStmts d) []).2

/-- All outputs recorded in a document. -/
def docOutputs (d : PyDoc) : List CellOutput := d.cells.flatMap (fun c => c.outputs)

/-! ## Step classification (for the pipeline-shape claim) -/

/-- The kinds of processing steps a statement can perform. -/
inductive Step : Type where
  | dataset
  | stats
  | chartBuild
  | remoteDisplay
  | reporting
  | publishing
deriving BEq, DecidableEq, Repr

/-- Chart-description constructors of the external charting library. -/
def goCtorNames : List String := ["go.Scatter", "go.Bar", "go.Layout", "go.Figure"]

/-- Calls into the external statistics library (constructors, fits and
fitted-model methods of the two covariance estimators). -/
def sklearnFnNames : List String :=
  ["LedoitWolf", "OAS", "lw.fit", "oa.fit", "lw.error_norm", "oa.error_norm"]

/-- Elements of a literal list that are all plain names. -/
def allNamesArgs : PyArgs → Bool
  | .nil => true
  | .cons (PyExpr.name _) es => allNamesArgs es
  | .cons _ _ => false

/-- A literal list all of whose elements are plain names (the trace
aggregation pattern `data = [trace1, trace2]`). -/
def isNameList : PyExpr → Bool
  | .listC es => allNamesArgs es
  | _ => false

/-- Classify the processing step a top-level expression performs, by the
calls it contains: a `py.iplot` call is a remote display; `display` /
`publisher.publish` are publishing boilerplate; chart constructors (or
trace aggregation) build the chart description; estimator calls are
statistics; a read of a fitted-model attribute is statistics and of
`sklearn` metadata is reporting, as is `print`; everything else (numeric
literals, numpy/scipy data construction) generates the dataset. -/
def classifyExpr (e : PyExpr) : Step :=
  let fns := e.fnsE
  if fns.contains "py.iplot" then .remoteDisplay
  else if fns.contains "display" || fns.contains "publisher.publish" then .publishing
  else if fns.any (fun f => goCtorNames.contains f) || isNameList e then .chartBuild
  else if fns.any (fun f => sklearnFnNames.contains f) then .stats
  else
    match e with
    | .attr obj _ => if obj == "sklearn" then .reporting else .stats
    | _ => if fns.contains "print" then .reporting else .dataset

mutual

/-- The processing steps a statement performs, in order (imports perform
none; a shell command is publishing boilerplate; a loop performs its
body's steps). -/
def stepsOfStmt : PyStmt → List Step
  | .importAs _ _ => []
  | .importFrom _ _ => []
  | .assign _ rhs => [classifyExpr rhs]
  | .setItem _ _ rhs => [classifyExpr rhs]
  | .exprStmt e => [classifyExpr e]
  | .forC _ _ body => stepsOfBlock body
  | .shell _ => [.publishing]
  | .ifC _ thenB elseB => stepsOfBlock thenB ++ stepsOfBlock elseB
  | .tryC body handler => stepsOfBlock body ++ stepsOfBlock handler
  | .funcC _ _ body => stepsOfBlock body

def stepsOfBlock : PyBlock → List Step
  | .nil => []
  | .cons s ss => stepsOfStmt s ++ stepsOfBlock ss

end

/-- The processing steps of a whole document, in order. -/
def docSteps (d : PyDoc) : List Step := (docStmts d).flatMap stepsOfStmt

/-- States of the automaton for the literal reading of the claim: exactly
one pass of dataset steps, then optional statistics, then chart
construction, then one remote display call, and nothing else. -/
inductive StrictState : Type where
  | start
  | dataB
  | statsB
  | chartB
  | allDone
deriving BEq, DecidableEq

/-- Transition function of the strict pipeline automaton. -/
def strictStep : StrictState → Step → Option StrictState
  | .start, .dataset => some .dataB
  | .dataB, .dataset => some .dataB
  | .dataB, .stats => some .statsB
  | .dataB, .chartBuild => some .chartB
  | .statsB, .stats => some .statsB
  | .statsB, .chartBuild => some .chartB
  | .chartB, .chartBuild => some .chartB
  | .chartB, .remoteDisplay => some .allDone
  | _, _ => none

/-- Whether a step sequence is exactly one dataset / optional statistics /
chart construction / remote display pipeline. -/
def strictAccepts (l : List Step) : Bool :=
  (l.foldl (fun st s => st.bind (fun q => strictStep q s)) (some .start)) == some .allDone

/-- States of the automaton for the amended pipeline shape: optional
reporting cells, then one or more chart-example units (optional dataset
steps, optional statistics steps, chart construction, remote display),
then optional publishing boilerplate. -/
inductive UnitState : Type where
  | pre
  | dataB
  | statsB
  | chartB
  | unitDone
  | post
deriving BEq, DecidableEq

/-- Transition function of the amended pipeline automaton. -/
def unitStep : UnitState → Step → Option UnitState
  | .pre, .reporting => some .pre
  | .pre, .dataset => some .dataB
  | .pre, .stats => some .statsB
  | .pre, .chartBuild => some .chartB
  | .dataB, .dataset => some .dataB
  | .dataB, .stats => some .statsB
  | .dataB, .chartBuild => some .chartB
  | .statsB, .stats => some .statsB
  | .statsB, .chartBuild => some .chartB
  | .chartB, .chartBuild => some .chartB
  | .chartB, .remoteDisplay => some .unitDone
  | .unitDone, .dataset => some .dataB
  | .unitDone, .stats => some .statsB
  | .unitDone, .chartBuild => some .chartB
  | .unitDone, .publishing => some .post
  | .post, .publishing => some .post
  | _, _ => none

/-- Whether a step sequence is reporting cells, then one or more
chart-example units, then publishing boilerplate. -/
def unitAccepts (l : List Step) : Bool :=
  match l.foldl (fun st s => st.bind (fun q => unitStep q s)) (some UnitState.pre) with
  | some .unitDone => true
  | some .post => true
  | _ => false

/-! ## Interpreter over the syntactic embedding

Straight-line cell code is evaluated exactly; calls into external libraries
(numpy, scipy, sklearn, `publisher`, ...) evaluate to inert `extV` values
recording the call target and the evaluated arguments.  `py.iplot` calls
are intercepted and recorded as submission events.  The interpreter is
structurally recursive on a fuel argument so that loop bodies (run once per
element of an evaluated iterable) terminate. -/

mutual

/-- Runtime values.  `objVC` is a chart-description object built by one of
the `go.*` constructors; `extVC` is the inert result of an external
call. -/
inductive PyVal : Type where
  | num (q : PyNum)
  | str (s : String)
  | boolV (b : Bool)
  | listVC (vs : PyVals)
  | dictVC (fields : PyFields)
  | objVC (ctor : String) (kwargs : PyFields)
  | module (name : String)
  | extVC (fn : String) (args : PyVals) (kwargs : PyFields)

/-- A list of runtime values. -/
inductive PyVals : Type where
  | nil
  | cons (v : PyVal) (vs : PyVals)

/-- Keyed runtime values (dictionary / object fields). -/
inductive PyFields : Type where
  | nil
  | cons (key : String) (v : PyVal) (fs : PyFields)

end

/-- Build a `PyVals` from a list literal. -/
def pyValsOf : List PyVal → PyVals
  | [] => .nil
  | v :: vs => .cons v (pyValsOf vs)

/-- Build a `PyFields` from a list literal. -/
def pyFieldsOf : List (String × PyVal) → PyFields
  | [] => .nil
  | (k, v) :: fs => .cons k v (pyFieldsOf fs)

/-- A list value. -/
def PyVal.listV (vs : List PyVal) : PyVal := .listVC (pyValsOf vs)

/-- A dictionary value. -/
def PyVal.dictV (fields : List (String × PyVal)) : PyVal := .dictVC (pyFieldsOf fields)

/-- A chart-description object value. -/
def PyVal.objV (ctor : String) (kwargs : List (String × PyVal)) : PyVal :=
  .objVC ctor (pyFieldsOf kwargs)

/-- An inert external-call result value. -/
def PyVal.extV (fn : String) (args : List PyVal) (kwargs : List (String × PyVal)) : PyVal :=
  .extVC fn (pyValsOf args) (pyFieldsOf kwargs)

mutual

/-- Whether a value consists entirely of literals (numbers, strings,
booleans, and lists/dicts/chart objects thereof) — no inert external
values anywhere inside. -/
def PyVal.isLiteralV : PyVal → Bool
  | .num _ => true
  | .str _ => true
  | .boolV _ => true
  | .listVC vs => literalVals vs
  | .dictVC fields => literalFields fields
  | .objVC _ kwargs => literalFields kwargs
  | .module _ => false
  | .extVC _ _ _ => false

def literalVals : PyVals → Bool
  | .nil => true
  | .cons v vs => v.isLiteralV && literalVals vs

def literalFields : PyFields → Bool
  | .nil => true
  | .cons _ v fs => v.isLiteralV && literalFields fs

end

/-- Lookup in keyed fields. -/
def PyFields.lookupF : PyFields → String → Option PyVal
  | .nil, _ => none
  | .cons k v fs, key => if k == key then some v else fs.lookupF key

/-- Head of a value list, with a default. -/
def PyVals.headD : PyVals → PyVal → PyVal
  | .nil, dflt => dflt
  | .cons v _, _ => v

/-- Replace the element at an index of a value list (out of range: no
change). -/
def PyVals.setN : PyVals → Nat → PyVal → PyVals
  | .nil, _, _ => .nil
  | .cons _ vs, 0, w => .cons w vs
  | .cons v vs, n + 1, w => .cons v (vs.setN n w)

/-- The element at an index of a value list, with a default. -/
def PyVals.getN : PyVals → Nat → PyVal → PyVal
  | .nil, _, dflt => dflt
  | .cons v _, 0, _ => v
  | .cons _ vs, n + 1, dflt => vs.getN n dflt

/-- Attach Python `enumerate` indices (from `k` up) to a value list. -/
def PyVals.enumFromN : PyVals → Nat → PyVals
  | .nil, _ => .nil
  | .cons v vs, k => .cons (.listVC (.cons (.num (PyNum.fromNat k)) (.cons v .nil))) (vs.enumFromN (k + 1))

/-- Append one value at the end of a value list. -/
def PyVals.push : PyVals → PyVal → PyVals
  | .nil, w => .cons w .nil
  | .cons v vs, w => .cons v (push vs w)

/-- The value list `0, 1, ..., n-1` of Python `range(n)`. -/
def rangeVals : Nat → PyVals
  | 0 => .nil
  | n + 1 => (rangeVals n).push (.num (PyNum.fromNat n))

mutual

/-- Evaluate an expression in an environment.  `dict(...)` builds a
dictionary, the `go.*` constructors build chart objects, `range` and
`enumerate` get their Python meaning on evaluated operands, and every
other call is an inert external call. -/
def evalExpr (env : List (String × PyVal)) : PyExpr → PyVal
  | .num q => .num q
  | .str s => .str s
  | .boolE b => .boolV b
  | .name s => (env.lookup s).getD (.extV "unbound" [.str s] [])
  | .attr obj f => .extVC "getattr" (.cons ((env.lookup obj).getD (.str obj)) (.cons (.str f) .nil)) .nil
  | .tupleC es => .listVC (evalArgs env es)
  | .listC es => .listVC (evalArgs env es)
  | .binop op l r => .extVC "binop" (.cons (.str op) (.cons (evalExpr env l) (.cons (evalExpr env r) .nil))) .nil
  | .callC fn args kwargs =>
      let va := evalArgs env args
      let vk := evalKwargs env kwargs
      if fn == "dict" then .dictVC vk
      else if goCtorNames.contains fn then .objVC fn vk
      else if fn == "range" then
        match va with
        | .cons (.num q) .nil => .listVC (rangeVals q.toNatIdx)
        | _ => .extVC fn va vk
      else if fn == "enumerate" then
        match va with
        | .cons (.listVC vs) .nil => .listVC (vs.enumFromN 0)
        | _ => .extVC fn va vk
      else .extVC fn va vk

def evalArgs (env : List (String × PyVal)) : PyArgs → PyVals
  | .nil => .nil
  | .cons e es => .cons (evalExpr env e) (evalArgs env es)

def evalKwargs (env : List (String × PyVal)) : PyKwargs → PyFields
  | .nil => .nil
  | .cons k e es => .cons k (evalExpr env e) (evalKwargs env es)

end

/-- A recorded `py.iplot` submission: the evaluated chart description and
the optional filename keyword. -/
structure IplotEvent where
  data : PyVal
  filename : Option String

/-- Interpreter state: the environment and the submissions so far. -/
structure InterpState where
  env : List (String × PyVal)
  events : List IplotEvent

/-- Bind loop variables to one iteration element (`for x in ...` /
`for i, n in enumerate(...)`). -/
def bindVars (env : List (String × PyVal)) (vars : List String) (v : PyVal) :
    List (String × PyVal) :=
  match vars, v with
  | [x], w => (x, w) :: env
  | [x, y], .listVC (.cons vx (.cons vy .nil)) => (y, vy) :: (x, vx) :: env
  | _, _ => env

/-- Element assignment `a[i] = v` / `a[i, j] = v` on evaluated list values;
on any other container shape the result is inert. -/
def setIndexVal (container : PyVal) (idx : PyVals) (v : PyVal) : PyVal :=
  match container, idx with
  | .listVC rows, .cons (.num i) .nil => .listVC (rows.setN i.toNatIdx v)
  | .listVC rows, .cons (.num i) (.cons (.num j) .nil) =>
      match rows.getN i.toNatIdx (.num 0) with
      | .listVC row => .listVC (rows.setN i.toNatIdx (.listVC (row.setN j.toNatIdx v)))
      | _ => .extV "setitem" [container, v] []
  | _, _ => .extV "setitem" [container, v] []

mutual

/-- Run one statement (with fuel).  A `py.iplot(...)` expression statement
records a submission event; other expression statements evaluate for
effect only. -/
def runStmtF : Nat → PyStmt → InterpState → InterpState
  | 0, _, st => st
  | fuel + 1, stmt, st =>
      match stmt with
      | .importAs m a => { st with env := (a, .module m) :: st.env }
      | .importFrom m ns =>
          { st with env := (ns.map (fun n => (n, PyVal.extV "import" [.str m, .str n] []))) ++ st.env }
      | .assign lhs rhs => { st with env := (lhs, evalExpr st.env rhs) :: st.env }
      | .setItem t idx rhs =>
          let v := evalExpr st.env rhs
          let iv := evalArgs st.env (pyArgsOf idx)
          match st.env.lookup t with
          | some c => { st with env := (t, setIndexVal c iv v) :: st.env }
          | none => st
      | .exprStmt e =>
          match e with
          | .callC "py.iplot" args kwargs =>
              let va := evalArgs st.env args
              let vk := evalKwargs st.env kwargs
              let fname := match vk.lookupF "filename" with | some (.str s) => some s | _ => none
              { st with events := st.events ++
                  [{ data := va.headD (.extV "missing" [] []), filename := fname }] }
          | _ => st
      | .forC vars iter body =>
          match evalExpr st.env iter with
          | .listVC vs => runLoopF fuel vars body vs st
          | _ => st
      | .shell _ => st
      | .ifC _ _ _ => st
      | .tryC _ _ => st
      | .funcC _ _ _ => st

/-- Run a block of statements in order (with fuel). -/
def runBlockF : Nat → PyBlock → InterpState → InterpState
  | 0, _, st => st
  | _ + 1, .nil, st => st
  | fuel + 1, .cons s ss, st => runBlockF fuel ss (runStmtF fuel s st)

/-- Run a `for` body once per iteration element (with fuel). -/
def runLoopF : Nat → List String → PyBlock → PyVals → InterpState → InterpState
  | 0, _, _, _, st => st
  | _ + 1, _, _, .nil, st => st
  | fuel + 1, vars, body, .cons v vs, st =>
      runLoopF fuel vars body vs (runBlockF fuel body { st with env := bindVars st.env vars v })

end

/-- Run a list of statements in order, giving each a fixed fuel budget. -/
def runStmtList (fuel : Nat) : List PyStmt → InterpState → InterpState
  | [], st => st
  | s :: ss, st => runStmtList fuel ss (runStmtF fuel s st)

/-- Fuel budget per top-level statement: far more than the nesting of any
statement in the two documents. -/
def interpFuel : Nat := 64

/-- The submission events produced by running a whole document from a
given initial environment. -/
def runDocEvents (d : PyDoc) (env0 : List (String × PyVal)) : List IplotEvent :=
  (runStmtList interpFuel (docStmts d) { env := env0, events := [] }).events

deriving instance DecidableEq for PyVal

deriving instance DecidableEq for IplotEvent

/-- The final environment after running a whole document from the empty
environment: every binding the document leaves behind. -/
def docFinalEnv (d : PyDoc) : List (String × PyVal) :=
  (runStmtList interpFuel (docStmts d) { env := [], events := [] }).env

/-! ## Functional embedding of the notebook's calculation and plot cells

The calculation cell (`In [3]`) and the two figure-construction cells
(`In [4]`, `In [6]`) are translated as functions parameterised over the
external numpy/scipy/sklearn operations they invoke.  `G` is the state of
numpy's global random generator, `Mat` the type of numpy arrays, `α` the
scalar type of the stored results, and `LW`/`OA` the types of the two
estimator objects. -/

/-- The external operations used by the notebook, abstract.  `normal g
(rows, cols)` models `np.random.normal(size=(rows, cols))`: it returns the
drawn array together with the advanced generator state.  `lwNew sp ac`
models `LedoitWolf(store_precision=sp, assume_centered=ac)`; `lwFit m X`
models `m.fit(X)` (which fits the estimator on `X`); `lwErrorNorm m c sc`
models `m.error_norm(c, scaling=sc)`; `lwShrinkage m` models
`m.shrinkage_`; likewise for `OAS`.  `mean1`/`std1` model `arr.mean(1)` /
`arr.std(1)`. -/
structure SciEnv (G Mat α LW OA : Type) where
  seed : Nat → G
  normal : G → Nat × Nat → Mat × G
  arangeM : Nat → Mat
  rpow : Rat → Mat → Mat
  toeplitz : Mat → Mat
  cholesky : Mat → Mat
  transpose : Mat → Mat
  dot : Mat → Mat → Mat
  zero : α
  lwNew : Bool → Bool → LW
  lwFit : LW → Mat → LW
  lwErrorNorm : LW → Mat → Bool → α
  lwShrinkage : LW → α
  oaNew : Bool → Bool → OA
  oaFit : OA → Mat → OA
  oaErrorNorm : OA → Mat → Bool → α
  oaShrinkage : OA → α
  mean1 : List (List α) → List α
  std1 : List (List α) → List α

/-- `n_features = 100`. -/
def n_features : Nat := 100

/-- `repeat = 100` (named with a prime because `repeat` is reserved). -/
def repeat' : Nat := 100

/-- Integer `np.arange(a, b, 1)`: the list `a, a+1, ..., b-1`. -/
def arangeNat (a b : Nat) : List Nat := List.range' a (b - a)

/-- `n_samples_range = np.arange(6, 31, 1)`. -/
def n_samples_range : List Nat := arangeNat 6 31

/-- `real_cov = toeplitz(r ** np.arange(n_features))` with `r = 0.1`. -/
def real_cov {G Mat α LW OA : Type} (E : SciEnv G Mat α LW OA) : Mat :=
  E.toeplitz (E.rpow (0.1 : Rat) (E.arangeM n_features))

/-- `coloring_matrix = cholesky(real_cov)`. -/
def coloring_matrix {G Mat α LW OA : Type} (E : SciEnv G Mat α LW OA) : Mat :=
  E.cholesky (real_cov E)

/-- The state threaded through the simulation loop: the four result arrays
and the generator state. -/
structure CalcState (G α : Type) where
  lw_mse : List (List α)
  oa_mse : List (List α)
  lw_shrinkage : List (List α)
  oa_shrinkage : List (List α)
  rng : G

/-- Element assignment `m[i, j] = v` on a matrix represented as a list of
rows (out-of-range indices leave the matrix unchanged, which never happens
in the loop). -/
def setEntry {α : Type} (m : List (List α)) (i j : Nat) (v : α) : List (List α) :=
  m.set i ((m.getD i []).set j v)

/-- The entry `m[i, j]`, if present. -/
def getE {α : Type} (m : List (List α)) (i j : Nat) : Option α :=
  m[i]?.bind (fun row => row[j]?)

/-- One pass of the inner loop body at indices `(i, j)` with sample count
`n_samples`: draw `X`, fit both estimators on it, store both error norms
and both shrinkage coefficients. -/
def bodyStep {G Mat α LW OA : Type} (E : SciEnv G Mat α LW OA)
    (i j n_samples : Nat) (s : CalcState G α) : CalcState G α :=
  let p := E.normal s.rng (n_samples, n_features)
  let X := E.dot p.1 (E.transpose (coloring_matrix E))
  let lw := E.lwFit (E.lwNew false true) X
  let oa := E.oaFit (E.oaNew false true) X
  { lw_mse := setEntry s.lw_mse i j (E.lwErrorNorm lw (real_cov E) false)
    lw_shrinkage := setEntry s.lw_shrinkage i j (E.lwShrinkage lw)
    oa_mse := setEntry s.oa_mse i j (E.oaErrorNorm oa (real_cov E) false)
    oa_shrinkage := setEntry s.oa_shrinkage i j (E.oaShrinkage oa)
    rng := p.2 }

/-- The inner loop `for j in range(repeat):` at row `i`. -/
def innerLoop {G Mat α LW OA : Type} (E : SciEnv G Mat α LW OA)
    (i n_samples : Nat) (s : CalcState G α) : CalcState G α :=
  (List.range repeat').foldl (fun t j => bodyStep E i j n_samples t) s

/-- `np.zeros((n_samples_range.size, repeat))`. -/
def zerosMat {G Mat α LW OA : Type} (E : SciEnv G Mat α LW OA) : List (List α) :=
  List.replicate n_samples_range.length (List.replicate repeat' E.zero)

/-- The calculation cell.  Its first statement is `np.random.seed(0)`, so
the incoming generator state `gIn` is discarded and the loop starts from
`E.seed 0`; then `for i, n_samples in enumerate(n_samples_range):` runs the
inner loop once per sample size. -/
def calcCell {G Mat α LW OA : Type} (E : SciEnv G Mat α LW OA) (gIn : G) :
    CalcState G α :=
  let _discarded := gIn
  n_samples_range.enum.foldl (fun s p => innerLoop E p.1 p.2 s)
    { lw_mse := zerosMat E, oa_mse := zerosMat E, lw_shrinkage := zerosMat E,
      oa_shrinkage := zerosMat E, rng := E.seed 0 }

/-- `line=dict(color=..., width=...)` styling of a trace. -/
structure LineStyle where
  color : String
  width : Nat

/-- `error_y=dict(visible=..., arrayminus=...)` of a trace. -/
structure ErrorYSpec (α : Type) where
  visible : Bool
  arrayminus : List α

/-- A `go.Scatter` trace as built by the two plot cells. -/
structure ScatterTrace (α : Type) where
  x : List Nat
  y : List α
  error_y : ErrorYSpec α
  name : String
  mode : String
  line : LineStyle

/-- The `go.Layout` of the two plot cells (title and axis titles). -/
structure FigLayout where
  title : String
  yaxisTitle : String
  xaxisTitle : String

/-- A `go.Figure`. -/
structure Figure (α : Type) where
  data : List (ScatterTrace α)
  layout : FigLayout

/-- The Plot-MSE cell (`In [4]`), as a function of the arrays it reads. -/
def plotMSECell {G Mat α LW OA : Type} (E : SciEnv G Mat α LW OA)
    (nsr : List Nat) (lw_mse oa_mse : List (List α)) : Figure α :=
  let ledoit_Wolf : ScatterTrace α :=
    { x := nsr, y := E.mean1 lw_mse,
      error_y := { visible := true, arrayminus := E.std1 lw_mse },
      name := "Ledoit-Wolf", mode := "lines", line := { color := "navy", width := 2 } }
  let oas : ScatterTrace α :=
    { x := nsr, y := E.mean1 oa_mse,
      error_y := { visible := true, arrayminus := E.std1 oa_mse },
      name := "OAS", mode := "lines", line := { color := "#FF8C00", width := 2 } }
  { data := [ledoit_Wolf, oas],
    layout := { title := "Comparison of covariance estimators",
                yaxisTitle := "Squared error", xaxisTitle := "n_samples" } }

/-- The Plot-shrinkage-coefficient cell (`In [6]`), as a function of the
arrays it reads.  As in the source, the Ledoit-Wolf trace's `arrayminus`
is `lw_mse.std(1)` while the OAS trace's is `oa_shrinkage.std(1)`. -/
def plotShrinkageCell {G Mat α LW OA : Type} (E : SciEnv G Mat α LW OA)
    (nsr : List Nat) (lw_shrinkage lw_mse oa_shrinkage : List (List α)) : Figure α :=
  let ledoit_Wolf : ScatterTrace α :=
    { x := nsr, y := E.mean1 lw_shrinkage,
      error_y := { visible := true, arrayminus := E.std1 lw_mse },
      name := "Ledoit-Wolf", mode := "lines", line := { color := "navy", width := 2 } }
  let oas : ScatterTrace α :=
    { x := nsr, y := E.mean1 oa_shrinkage,
      error_y := { visible := true, arrayminus := E.std1 oa_shrinkage },
      name := "OAS", mode := "lines", line := { color := "#FF8C00", width := 2 } }
  { data := [ledoit_Wolf, oas],
    layout := { title := "Comparison of covariance estimators",
                yaxisTitle := "Shrinkage", xaxisTitle := "n_samples" } }

/-- The trivial instantiation of the external operations (used to witness
theorems whose statements quantify over `SciEnv`). -/
def unitEnv : SciEnv Unit Unit Unit Unit Unit where
  seed _ := ()
  normal _ _ := ((), ())
  arangeM _ := ()
  rpow _ _ := ()
  toeplitz _ := ()
  cholesky _ := ()
  transpose _ := ()
  dot _ _ := ()
  zero := ()
  lwNew _ _ := ()
  lwFit _ _ := ()
  lwErrorNorm _ _ _ := ()
  lwShrinkage _ := ()
  oaNew _ _ := ()
  oaFit _ _ := ()
  oaErrorNorm _ _ _ := ()
  oaShrinkage _ := ()
  mean1 _ := []
  std1 _ := []

/-- An instantiation over natural-number scalars whose `std1` is array
flattening — enough to separate `std1 lw_mse` from `std1 lw_shrinkage` on
concrete arrays. -/
def flatEnv : SciEnv Unit Unit Nat Unit Unit where
  seed _ := ()
  normal _ _ := ((), ())
  arangeM _ := ()
  rpow _ _ := ()
  toeplitz _ := ()
  cholesky _ := ()
  transpose _ := ()
  dot _ _ := ()
  zero := 0
  lwNew _ _ := ()
  lwFit _ _ := ()
  lwErrorNorm _ _ _ := 0
  lwShrinkage _ := 0
  oaNew _ _ := ()
  oaFit _ _ := ()
  oaErrorNorm _ _ _ := 0
  oaShrinkage _ := 0
  mean1 m := m.flatten
  std1 m := m.flatten

/-! ## Structural properties of the simulation loop -/

/-- The expected shape of a result array: one row per sample size, one
column per repetition. -/
def ShapeM {α : Type} (m : List (List α)) : Prop :=
  m.length = n_samples_range.length ∧ ∀ row ∈ m, row.length = repeat'

/-- All four result arrays have the expected shape. -/
def Shape {G α : Type} (s : CalcState G α) : Prop :=
  ShapeM s.lw_mse ∧ ShapeM s.oa_mse ∧ ShapeM s.lw_shrinkage ∧ ShapeM s.oa_shrinkage

/-- The sample matrix drawn at one loop iteration from generator state `g`
with sample count `n`:
`X = np.dot(np.random.normal(size=(n, n_features)), coloring_matrix.T)`. -/
def drawX {G Mat α LW OA : Type} (E : SciEnv G Mat α LW OA) (g : G) (n : Nat) : Mat :=
  E.dot (E.normal g (n, n_features)).1 (E.transpose (coloring_matrix E))

/-- The four entries at `(i, j)` all come from fitting the two estimators
on one and the same drawn matrix `X` of size `(n, n_features)`: the
Ledoit-Wolf entries are `error_norm(real_cov, scaling=False)` and
`shrinkage_` of `LedoitWolf(store_precision=False,
assume_centered=True).fit(X)`, and the OAS entries likewise for
`OAS(...).fit(X)` — with the same `X`. -/
def pairedFit {G Mat α LW OA : Type} (E : SciEnv G Mat α LW OA)
    (s : CalcState G α) (i j n : Nat) : Prop :=
  ∃ X : Mat, (∃ g : G, X = drawX E g n) ∧
    getE s.lw_mse i j = some (E.lwErrorNorm (E.lwFit (E.lwNew false true) X) (real_cov E) false) ∧
    getE s.lw_shrinkage i j = some (E.lwShrinkage (E.lwFit (E.lwNew false true) X)) ∧
    getE s.oa_mse i j = some (E.oaErrorNorm (E.oaFit (E.oaNew false true) X) (real_cov E) false) ∧
    getE s.oa_shrinkage i j = some (E.oaShrinkage (E.oaFit (E.oaNew false true) X))

deriving instance DecidableEq for CellOutput

/-- An output that is a failed package-installation transcript. -/
def isFailedInstall : CellOutput → Bool
  | .installFailure _ _ _ _ => true
  | _ => false

theorem shapeM_setEntry {α : Type} {m : List (List α)} (h : ShapeM m) (i j : Nat) (v : α) :
    ShapeM (setEntry m i j v) := by
  obtain ⟨h1, h2⟩ := h
  by_cases hi : i < m.length
  · refine ⟨by simp [setEntry, h1], ?_⟩
    intro row hrow
    rcases List.mem_or_eq_of_mem_set hrow with hmem | rfl
    · exact h2 _ hmem
    · rw [List.length_set, List.getD_eq_getElem _ _ hi]
      exact h2 _ (List.getElem_mem hi)
  · rw [setEntry, List.set_eq_of_length_le (Nat.le_of_not_lt hi)]
    exact ⟨h1, h2⟩

theorem getE_setEntry_self {α : Type} {m : List (List α)} (hm : ShapeM m)
    {i j : Nat} (hi : i < n_samples_range.length) (hj : j < repeat') (v : α) :
    getE (setEntry m i j v) i j = some v := by
  obtain ⟨h1, h2⟩ := hm
  have hi' : i < m.length := h1 ▸ hi
  have hrow : (m.getD i []).length = repeat' := by
    rw [List.getD_eq_getElem _ _ hi']
    exact h2 _ (List.getElem_mem hi')
  rw [getE, setEntry, List.getElem?_set_self hi']
  simp only [Option.some_bind]
  exact List.getElem?_set_self (by rw [hrow]; exact hj)

theorem getE_setEntry_ne {α : Type} (m : List (List α)) {i j i' j' : Nat}
    (hne : i ≠ i' ∨ j ≠ j') (v : α) :
    getE (setEntry m i' j' v) i j = getE m i j := by
  rcases hne with hne | hne
  · rw [getE, getE, setEntry, List.getElem?_set_ne (fun h => hne h.symm)]
  · by_cases hii : i = i'
    · subst hii
      by_cases hi : i < m.length
      · rw [getE, getE, setEntry, List.getElem?_set_self hi, List.getElem?_eq_getElem hi]
        simp only [Option.some_bind]
        rw [List.getD_eq_getElem _ _ hi]
        exact List.getElem?_set_ne (fun h => hne h.symm)
      · rw [setEntry, List.set_eq_of_length_le (Nat.le_of_not_lt hi)]
    · rw [getE, getE, setEntry, List.getElem?_set_ne (fun h => hii h.symm)]

theorem shape_bodyStep {G Mat α LW OA : Type} (E : SciEnv G Mat α LW OA)
    (i j n : Nat) {s : CalcState G α} (hs : Shape s) : Shape (bodyStep E i j n s) :=
  ⟨shapeM_setEntry hs.1 i j _, shapeM_setEntry hs.2.1 i j _,
   shapeM_setEntry hs.2.2.1 i j _, shapeM_setEntry hs.2.2.2 i j _⟩

theorem pairedFit_bodyStep {G Mat α LW OA : Type} (E : SciEnv G Mat α LW OA)
    {i j : Nat} (n : Nat) {s : CalcState G α} (hs : Shape s)
    (hi : i < n_samples_range.length) (hj : j < repeat') :
    pairedFit E (bodyStep E i j n s) i j n :=
  ⟨drawX E s.rng n, ⟨s.rng, rfl⟩,
   getE_setEntry_self hs.1 hi hj _, getE_setEntry_self hs.2.2.1 hi hj _,
   getE_setEntry_self hs.2.1 hi hj _, getE_setEntry_self hs.2.2.2 hi hj _⟩

theorem pairedFit_bodyStep_ne {G Mat α LW OA : Type} (E : SciEnv G Mat α LW OA)
    {i j i' j' n : Nat} (n' : Nat) (hne : i ≠ i' ∨ j ≠ j') {s : CalcState G α}
    (h : pairedFit E s i j n) : pairedFit E (bodyStep E i' j' n' s) i j n := by
  obtain ⟨X, hg, h1, h2, h3, h4⟩ := h
  exact ⟨X, hg,
    (getE_setEntry_ne _ hne _).trans h1, (getE_setEntry_ne _ hne _).trans h2,
    (getE_setEntry_ne _ hne _).trans h3, (getE_setEntry_ne _ hne _).trans h4⟩

theorem pairedFit_congr {G Mat α LW OA : Type} {E : SciEnv G Mat α LW OA}
    {s s' : CalcState G α} {i j n : Nat}
    (h1 : getE s'.lw_mse i j = getE s.lw_mse i j)
    (h2 : getE s'.oa_mse i j = getE s.oa_mse i j)
    (h3 : getE s'.lw_shrinkage i j = getE s.lw_shrinkage i j)
    (h4 : getE s'.oa_shrinkage i j = getE s.oa_shrinkage i j)
    (hp : pairedFit E s i j n) : pairedFit E s' i j n := by
  obtain ⟨X, hg, p1, p2, p3, p4⟩ := hp
  exact ⟨X, hg, h1.trans p1, h3.trans p2, h2.trans p3, h4.trans p4⟩

/-- Invariant of the inner loop `for j in range(k):` at row `i`: shapes are
preserved, rows other than `i` are untouched, and every column `j < k`
holds a paired fit. -/
theorem innerRange_spec {G Mat α LW OA : Type} (E : SciEnv G Mat α LW OA)
    (i n : Nat) (hi : i < n_samples_range.length) (k : Nat) :
    ∀ (s : CalcState G α), Shape s →
      Shape ((List.range k).foldl (fun t j => bodyStep E i j n t) s) ∧
      (∀ i' j', i' ≠ i →
        getE ((List.range k).foldl (fun t j => bodyStep E i j n t) s).lw_mse i' j' =
          getE s.lw_mse i' j' ∧
        getE ((List.range k).foldl (fun t j => bodyStep E i j n t) s).oa_mse i' j' =
          getE s.oa_mse i' j' ∧
        getE ((List.range k).foldl (fun t j => bodyStep E i j n t) s).lw_shrinkage i' j' =
          getE s.lw_shrinkage i' j' ∧
        getE ((List.range k).foldl (fun t j => bodyStep E i j n t) s).oa_shrinkage i' j' =
          getE s.oa_shrinkage i' j') ∧
      (∀ j, j < k → j < repeat' →
        pairedFit E ((List.range k).foldl (fun t j => bodyStep E i j n t) s) i j n) := by
  induction k with
  | zero =>
      intro s hs
      exact ⟨hs, fun _ _ _ => ⟨rfl, rfl, rfl, rfl⟩, fun j hj _ => absurd hj (Nat.not_lt_zero j)⟩
  | succ k ih =>
      intro s hs
      rw [List.range_succ, List.foldl_append, List.foldl_cons, List.foldl_nil]
      obtain ⟨Hsh, Hpres, Hfit⟩ := ih s hs
      refine ⟨shape_bodyStep E i k n Hsh, ?_, ?_⟩
      · intro i' j' hne
        obtain ⟨q1, q2, q3, q4⟩ := Hpres i' j' hne
        exact ⟨(getE_setEntry_ne _ (Or.inl hne) _).trans q1,
               (getE_setEntry_ne _ (Or.inl hne) _).trans q2,
               (getE_setEntry_ne _ (Or.inl hne) _).trans q3,
               (getE_setEntry_ne _ (Or.inl hne) _).trans q4⟩
      · intro j hj hjr
        rcases Nat.lt_succ_iff_lt_or_eq.mp hj with hjk | rfl
        · exact pairedFit_bodyStep_ne E n (Or.inr (Nat.ne_of_lt hjk)) (Hfit j hjk hjr)
        · exact pairedFit_bodyStep E n Hsh hi hjr

/-- Invariant of the outer loop over the first `k` sample sizes: shapes are
preserved and every processed cell `(i, j)` with `i < k` holds a paired fit
with sample count `6 + i`. -/
theorem outerRange_spec {G Mat α LW OA : Type} (E : SciEnv G Mat α LW OA) (k : Nat) :
    k ≤ n_samples_range.length →
    ∀ (s : CalcState G α), Shape s →
      Shape ((List.range k).foldl (fun t i => innerLoop E i (6 + i) t) s) ∧
      (∀ i j, i < k → j < repeat' →
        pairedFit E ((List.range k).foldl (fun t i => innerLoop E i (6 + i) t) s) i j (6 + i)) := by
  induction k with
  | zero =>
      intro _ s hs
      exact ⟨hs, fun i j hi _ => absurd hi (Nat.not_lt_zero i)⟩
  | succ k ih =>
      intro hk s hs
      have hklt : k < n_samples_range.length := hk
      rw [List.range_succ, List.foldl_append, List.foldl_cons, List.foldl_nil]
      obtain ⟨Hsh, Hfit⟩ := ih (Nat.le_of_succ_le hk) s hs
      have I := innerRange_spec E k (6 + k) hklt repeat'
        ((List.range k).foldl (fun t i => innerLoop E i (6 + i) t) s) Hsh
      refine ⟨I.1, ?_⟩
      intro i j hik hjr
      rcases Nat.lt_succ_iff_lt_or_eq.mp hik with hik | rfl
      · obtain ⟨q1, q2, q3, q4⟩ := I.2.1 i j (Nat.ne_of_lt hik)
        exact pairedFit_congr q1 q2 q3 q4 (Hfit i j hik hjr)
      · exact I.2.2 j hjr hjr

theorem shape_init {G Mat α LW OA : Type} (E : SciEnv G Mat α LW OA) (g : G) :
    Shape { lw_mse := zerosMat E, oa_mse := zerosMat E, lw_shrinkage := zerosMat E,
            oa_shrinkage := zerosMat E, rng := g } := by
  have h : ShapeM (zerosMat E) := by
    constructor
    · simp [zerosMat]
    · intro row hrow
      rw [List.eq_of_mem_replicate hrow]
      simp
  exact ⟨h, h, h, h⟩

set_option maxRecDepth 10000 in
theorem enum_n_samples_range :
    n_samples_range.enum = (List.range 25).map (fun i => (i, 6 + i)) := by decide

set_option maxRecDepth 10000 in
set_option maxHeartbeats 1000000 in
/-- Main characterisation of the calculation cell: whatever the incoming
generator state and the external operations, the four result arrays have
shape `25 × 100`, and each cell `(i, j)` holds the paired fit of both
estimators on a single drawn matrix of size `(6 + i, n_features)`. -/
theorem calcCell_spec {G Mat α LW OA : Type} (E : SciEnv G Mat α LW OA) (gIn : G)
    {i j : Nat} (hi : i < 25) (hj : j < 100) :
    Shape (calcCell E gIn) ∧ pairedFit E (calcCell E gIn) i j (6 + i) := by
  have hlen : n_samples_range.length = 25 := by simp [n_samples_range, arangeNat]
  have key : calcCell E gIn = (List.range 25).foldl (fun t i => innerLoop E i (6 + i) t)
      { lw_mse := zerosMat E, oa_mse := zerosMat E, lw_shrinkage := zerosMat E,
        oa_shrinkage := zerosMat E, rng := E.seed 0 } := by
    simp only [calcCell]
    rw [enum_n_samples_range, List.foldl_map]
  have O := outerRange_spec E 25 (by rw [hlen])
    { lw_mse := zerosMat E, oa_mse := zerosMat E, lw_shrinkage := zerosMat E,
      oa_shrinkage := zerosMat E, rng := E.seed 0 } (shape_init E _)
  rw [key]
  exact ⟨O.1, O.2 i j hi hj⟩

/-- The `i`-th entry of `n_samples_range` is `6 + i`. -/
theorem nsr_getD {i : Nat} (hi : i < 25) : n_samples_range.getD i 0 = 6 + i := by
  have hlen : n_samples_range.length = 25 := by simp [n_samples_range, arangeNat]
  rw [List.getD_eq_getElem _ _ (by rw [hlen]; exact hi)]
  show (List.range' 6 25)[i] = 6 + i
  rw [List.getElem_range']
  omega

/-! ## Claim theorems -/

/-- C1, counterexample.  The claim "no object created in one cell is read
or modified by a later cell" is false on the notebook: cross-cell use
exists — `lw_mse` is created by the calculation cell (code cell 3) and
read by the Plot-MSE cell (code cell 4), and `fig` is created by the
Plot-MSE cell and read by the `py.iplot(fig)` cell (code cell 5). -/
theorem claim_C1_counterexample :
    noCrossUseCells notebookDoc.cells = false ∧
    "lw_mse" ∈ cellDefines notebookCell3 ∧ "lw_mse" ∈ cellExtReads notebookCell4 ∧
    "fig" ∈ cellDefines notebookCell4 ∧ "fig" ∈ cellExtReads notebookCell5 := by
  refine ⟨by decide, by decide, by decide, by decide, by decide⟩

/-- C1, amended: in the error-bars document every structure is created,
used and submitted within a single cell (no cross-cell reads or element
assignments at all); in the notebook, arrays and figures created in one
cell are read by later cells, but no object created in one cell is
element-assigned (mutated) by a later cell in either document. -/
theorem claim_C1 :
    noCrossUseCells errorBarsDoc.cells = true ∧
    noCrossMutateCells notebookDoc.cells = true ∧
    noCrossMutateCells errorBarsDoc.cells = true := by
  refine ⟨by decide, by decide, by decide⟩

/-- C2, counterexample.  Neither document is exactly one
dataset/statistics/chart/display pipeline: the error-bars document repeats
the chart-construction/display pair seven times (its first step is a chart
build, not a dataset step), and the notebook additionally performs
reporting steps (the version cell, `print(__doc__)`) and publishing steps
(the `pip install` shell command, `display(HTML(...))` and
`publisher.publish`), which are not among (a)-(d). -/
theorem claim_C2_counterexample :
    strictAccepts (docSteps errorBarsDoc) = false ∧
    strictAccepts (docSteps notebookDoc) = false ∧
    (docSteps notebookDoc).contains Step.publishing = true ∧
    (docSteps notebookDoc).contains Step.reporting = true := by
  refine ⟨by decide, by decide, by decide, by decide⟩

/-- C2, amended: each document is a sequence of reporting steps, then one
or more chart-example units — optional dataset-generation steps, then
optional external-statistics steps, then chart-description construction,
then one remote display call, in that order — then publishing
boilerplate; no other kind of processing occurs. -/
theorem claim_C2 :
    unitAccepts (docSteps errorBarsDoc) = true ∧
    unitAccepts (docSteps notebookDoc) = true := by
  refine ⟨by decide, by decide⟩

/-- C3, counterexample.  Not every chart submission carries only values
written literally in the source: the seventh submission of the error-bars
document (`error-bar-style`) submits a trace whose x values are
`np.linspace(-4, 4, 100)` and whose y values are `np.sinc(x_theo)`,
computed rather than literal (and both notebook submissions carry computed
simulation results). -/
theorem claim_C3_counterexample :
    ((runDocEvents errorBarsDoc [] ++ runDocEvents notebookDoc []).all
      (fun e => e.data.isLiteralV)) = false ∧
    ((runDocEvents errorBarsDoc []).map (fun e => e.data.isLiteralV))[6]? = some false := by
  refine ⟨by decide, by decide⟩

/-- C3, amended: every submission passes its arguments through unchanged,
and in the six literal examples of the error-bars document the submitted
values are exactly the literals written in the source — in particular the
basic symmetric example submits one `go.Scatter` trace with `x = [0, 1,
2]`, `y = [6, 10, 2]` and `error_y` of type `data` with `array = [1, 2,
3]` and `visible = True`, under filename `basic-error-bar`; the seventh
(`error-bar-style`) submission carries computed (non-literal) values. -/
theorem claim_C3 :
    (runDocEvents errorBarsDoc [])[0]? = some
      { data := PyVal.listV [PyVal.objV "go.Scatter" [
          ("x", .listV [.num 0, .num 1, .num 2]),
          ("y", .listV [.num 6, .num 10, .num 2]),
          ("error_y", .dictV [
            ("type", .str "data"),
            ("array", .listV [.num 1, .num 2, .num 3]),
            ("visible", .boolV true)])]],
        filename := some "basic-error-bar" } ∧
    (runDocEvents errorBarsDoc []).map (fun e => e.filename) =
      [some "basic-error-bar", some "error-bar-asymmetric-array", some "percent-error-bar",
       some "error-bar-asymmetric-constant", some "error-bar-horizontal", some "error-bar-bar",
       some "error-bar-style"] ∧
    (runDocEvents errorBarsDoc []).map (fun e => e.data.isLiteralV) =
      [true, true, true, true, true, true, false] := by
  refine ⟨by decide, by decide, by decide⟩

/-- C4.  The documents are independent: every name a document reads
without first binding it is a Python builtin — in particular no name bound
by the other document; and running either document on top of the complete
final environment left behind by the other produces exactly the same
submissions as running it alone. -/
theorem claim_C4 :
    namesDisjoint (docFreeReads errorBarsDoc) (docDefines notebookDoc) = true ∧
    namesDisjoint (docFreeReads notebookDoc) (docDefines errorBarsDoc) = true ∧
    (docFreeReads errorBarsDoc).all (fun n => builtinNames.contains n) = true ∧
    (docFreeReads notebookDoc).all (fun n => builtinNames.contains n) = true ∧
    runDocEvents errorBarsDoc (docFinalEnv notebookDoc) = runDocEvents errorBarsDoc [] ∧
    runDocEvents notebookDoc (docFinalEnv errorBarsDoc) = runDocEvents notebookDoc [] := by
  refine ⟨by decide, by decide, by decide, by decide, by decide, by decide⟩

/-- C5.  The error-bars document carries YAML front matter for the site
generator, and it assigns permalink `python/error-bars/`, title
`Error Bars | plotly` and thumbnail `thumbnail/error-bar.jpg`. -/
theorem claim_C5 :
    errorBarsDoc.frontMatter ≠ [] ∧
    errorBarsDoc.frontMatter.lookup "permalink" = some "python/error-bars/" ∧
    errorBarsDoc.frontMatter.lookup "title" = some "Error Bars | plotly" ∧
    errorBarsDoc.frontMatter.lookup "thumbnail" = some "thumbnail/error-bar.jpg" := by
  refine ⟨by decide, by decide, by decide, by decide⟩

/-- C6.  Exactly one recorded output across the repository is a failed
package installation — the `pip install` of `publisher` in the notebook's
publisher cell, refused with "Permission denied" and exit code 1 — and no
statement of either document contains a `try`/`except` handler or an `if`
branch, nor a shell command nested inside any loop, branch or function
(no retry). -/
theorem claim_C6 :
    (docOutputs errorBarsDoc ++ docOutputs notebookDoc).countP isFailedInstall = 1 ∧
    CellOutput.installFailure "publisher" "/usr/local/lib/python2.7/dist-packages/publisher"
      "Permission denied" 1 ∈ docOutputs notebookDoc ∧
    (docStmts errorBarsDoc ++ docStmts notebookDoc).all (fun s => !hasHandlerStmt s) = true ∧
    (docStmts errorBarsDoc ++ docStmts notebookDoc).all (fun s => !shellInsideStmt s) = true := by
  refine ⟨by decide, by decide, by decide, by decide⟩

/-- C7.  The covariance estimators are consumed only as external library
calls: neither document defines any function, the notebook imports
`LedoitWolf` and `OAS` from `sklearn.covariance`, and (in the
parameterised embedding of the calculation cell) every stored covariance
error norm and shrinkage coefficient is exactly an application of the
external estimator operations — construct (`LedoitWolf(...)` /
`OAS(...)`), fit on the drawn `X`, then read `error_norm` /
`shrinkage_`. -/
theorem claim_C7 :
    (docStmts errorBarsDoc ++ docStmts notebookDoc).all (fun s => !funcDefStmt s) = true ∧
    (docStmts notebookDoc).any (importFromStmt "sklearn.covariance" "LedoitWolf") = true ∧
    (docStmts notebookDoc).any (importFromStmt "sklearn.covariance" "OAS") = true ∧
    (∀ (G Mat α LW OA : Type) (E : SciEnv G Mat α LW OA) (gIn : G) (i j : Nat),
      i < 25 → j < 100 → pairedFit E (calcCell E gIn) i j (6 + i)) := by
  refine ⟨by decide, by decide, by decide, ?_⟩
  intro G Mat α LW OA E gIn i j hi hj
  exact (calcCell_spec E gIn hi hj).2

/-- C7, witness: the characterisation instantiated at the trivial external
operations and cell (0, 0). -/
theorem claim_C7_witness :
    (0 < 25 ∧ 0 < 100) ∧ pairedFit unitEnv (calcCell unitEnv ()) 0 0 (6 + 0) :=
  ⟨⟨by decide, by decide⟩,
   claim_C7.2.2.2 Unit Unit Unit Unit Unit unitEnv () 0 0 (by decide) (by decide)⟩

/-- C8.  In the simulation double loop, for every `i < 25` and `j < 100`:
the four result arrays all have 25 rows of 100 entries and every entry is
populated by the loop; the `i`-th sample size is `6 + i` (so it ranges
over 6..30) and is strictly below `n_features = 100`, as is every entry of
`n_samples_range`; and the `(i, j)` entries of all four arrays come from
fitting LedoitWolf and OAS on one identical drawn matrix `X` of size
`(6 + i, n_features)`. -/
theorem claim_C8 {G Mat α LW OA : Type} (E : SciEnv G Mat α LW OA) (gIn : G)
    {i j : Nat} (hi : i < 25) (hj : j < 100) :
    Shape (calcCell E gIn) ∧
    n_samples_range.getD i 0 = 6 + i ∧
    6 + i < n_features ∧
    (∀ n ∈ n_samples_range, n < n_features) ∧
    pairedFit E (calcCell E gIn) i j (6 + i) := by
  obtain ⟨hsh, hfit⟩ := calcCell_spec E gIn hi hj
  refine ⟨hsh, nsr_getD hi, ?_, by decide, hfit⟩
  show 6 + i < 100
  omega

/-- C8, witness: the characterisation instantiated at the trivial external
operations and cell (0, 0). -/
theorem claim_C8_witness :
    (0 < 25 ∧ 0 < 100) ∧
    (Shape (calcCell unitEnv ()) ∧
     n_samples_range.getD 0 0 = 6 + 0 ∧
     6 + 0 < n_features ∧
     (∀ n ∈ n_samples_range, n < n_features) ∧
     pairedFit unitEnv (calcCell unitEnv ()) 0 0 (6 + 0)) :=
  ⟨⟨by decide, by decide⟩, claim_C8 unitEnv () (by decide) (by decide)⟩

/-- C9.  In the shrinkage-coefficient figure, the two traces' `arrayminus`
error bars are built asymmetrically: whatever the external `std`
operation and the arrays, the Ledoit-Wolf trace's `arrayminus` is
`lw_mse.std(1)` while the OAS trace's is `oa_shrinkage.std(1)`; and on a
concrete instantiation the Ledoit-Wolf `arrayminus` differs from
`lw_shrinkage.std(1)`, so the Ledoit-Wolf shrinkage error bars do not come
from `lw_shrinkage`. -/
theorem claim_C9 :
    (∀ (G Mat α LW OA : Type) (E : SciEnv G Mat α LW OA) (nsr : List Nat)
      (lw_shrinkage lw_mse oa_shrinkage : List (List α)),
      (plotShrinkageCell E nsr lw_shrinkage lw_mse oa_shrinkage).data.map
          (fun t => t.error_y.arrayminus) = [E.std1 lw_mse, E.std1 oa_shrinkage] ∧
      (plotShrinkageCell E nsr lw_shrinkage lw_mse oa_shrinkage).data.map
          (fun t => t.name) = ["Ledoit-Wolf", "OAS"]) ∧
    (plotShrinkageCell flatEnv n_samples_range [[1]] [[2]] [[3]]).data.map
        (fun t => t.error_y.arrayminus) ≠ [flatEnv.std1 [[1]], flatEnv.std1 [[3]]] := by
  refine ⟨fun G Mat α LW OA E nsr a b c => ⟨rfl, rfl⟩, by decide⟩

/-- C10.  The calculation cell begins with `np.random.seed(0)`, so its
result does not depend on the incoming global generator state: any two
executions produce identical `lw_mse`, `oa_mse`, `lw_shrinkage` and
`oa_shrinkage` arrays, and hence the two figure-construction cells build
identical chart descriptions. -/
theorem claim_C10 (G Mat α LW OA : Type) (E : SciEnv G Mat α LW OA) (g1 g2 : G) :
    calcCell E g1 = calcCell E g2 ∧
    plotMSECell E n_samples_range (calcCell E g1).lw_mse (calcCell E g1).oa_mse =
      plotMSECell E n_samples_range (calcCell E g2).lw_mse (calcCell E g2).oa_mse ∧
    plotShrinkageCell E n_samples_range (calcCell E g1).lw_shrinkage (calcCell E g1).lw_mse
        (calcCell E g1).oa_shrinkage =
      plotShrinkageCell E n_samples_range (calcCell E g2).lw_shrinkage (calcCell E g2).lw_mse
        (calcCell E g2).oa_shrinkage :=
  ⟨rfl, rfl, rfl⟩
